import Mathlib

/-!
Verification of the reactive data-binding and cross-view selection engine
specified for the BokehSample repository.  The scripts of the repository are
call-site glue around a third-party plotting library; the spec describes the
implicit core engine (DataSource, TransformPipeline, SelectionController,
CallbackEngine).  Where the engine itself is not present in the source files
(only its call sites are), the definitions below are modelled from the spec,
and are marked as such.  The two pieces that do live in the source — the
sine-wave slider callback of 02_interactive_plots.py and the palette index
computations of 03_dashboard_layouts.py — are embedded from the source.
-/

namespace BokehCore

/-- Modelled from the spec: a cell value of a DataSource column — numeric,
string, or boolean (§3, DataSource.columns). -/
inductive Value where
  | num (q : ℚ)
  | str (s : String)
  | boolean (b : Bool)
deriving DecidableEq

/-- Modelled from the spec: error kinds of §7 raised by DataSource
operations. -/
inductive DSError where
  | schemaError
  | unknownColumn
  | indexRange
deriving DecidableEq

/-- Modelled from the spec: a change notification delivered to a registered
renderer (identified by its id): either a full data change after a patch, or
the cheaper selection-only change (§4.1). -/
inductive Note where
  | dataChanged (rid : ℕ)
  | selectionChanged (rid : ℕ)
deriving DecidableEq

/-- Modelled from the spec: the DataSource of §3 — named columns (ordered
sequences of values), a selection (row indices), and the registration list of
renderer ids, in registration order, used for notification. -/
structure DataSource where
  columns : List (String × List Value)
  selection : List ℕ
  renderers : List ℕ
deriving DecidableEq

/-- Modelled from the spec: the row count N of a DataSource (§4.1,
row_count), read off the first column. -/
def DataSource.rowCount (s : DataSource) : ℕ :=
  (s.columns.headI).2.length

/-- Modelled from the spec: the equal-length schema invariant of §3 — every
column has exactly N elements. -/
def goodSchema (s : DataSource) : Prop :=
  ∀ c ∈ s.columns, c.2.length = s.rowCount

instance (s : DataSource) : Decidable (goodSchema s) :=
  List.decidableBAll _ s.columns

/-- Modelled from the spec: the boolean equal-length check used by patch to
guard the schema invariant. -/
def eqLenB (cols : List (String × List Value)) : Bool :=
  cols.all (fun c => c.2.length == (cols.headI).2.length)

/-- Modelled from the spec: DataSource.patch (§4.1) — wholesale replacement
of the named columns; fails with UnknownColumnError if the delta references a
column absent from the schema, with SchemaError if the result would violate
the equal-length invariant; on success notifies all registered renderers
synchronously, in registration order. -/
def DataSource.patch (s : DataSource) (delta : List (String × List Value)) :
    Except DSError (DataSource × List Note) :=
  if delta.all (fun d => s.columns.any (fun c => c.1 == d.1)) then
    let cols := s.columns.map (fun c =>
      match delta.lookup c.1 with
      | some v => (c.1, v)
      | none => c)
    if eqLenB cols then
      .ok ({ s with columns := cols }, s.renderers.map Note.dataChanged)
    else
      .error .schemaError
  else
    .error .unknownColumn

/-- Modelled from the spec: DataSource.set_selection (§4.1) — fails with
IndexRangeError if any index is outside the half-open interval from 0 to N;
on success replaces the selection and notifies every registered renderer of a
selection-only change. -/
def DataSource.set_selection (s : DataSource) (idx : List ℕ) :
    Except DSError (DataSource × List Note) :=
  if idx.all (fun i => i < s.rowCount) then
    .ok ({ s with selection := idx }, s.renderers.map Note.selectionChanged)
  else
    .error .indexRange

/-- Modelled from the spec: applying a sequence of patch deltas; a rejected
patch leaves the source exactly as it was (§7: none silently swallowed, a
failed operation does not apply). -/
def applyPatchSeq (s : DataSource) (ds : List (List (String × List Value))) :
    DataSource :=
  ds.foldl (fun cur d =>
    match cur.patch d with
    | .ok (s2, _) => s2
    | .error _ => cur) s

lemma eqLenB_goodSchema (s : DataSource) (h : eqLenB s.columns = true) :
    goodSchema s := by
  intro c hc
  have h2 := (List.all_eq_true.mp h) c hc
  have h3 : c.2.length = (s.columns.headI).2.length := by simpa using h2
  simpa [DataSource.rowCount] using h3

lemma patch_ok_good (s : DataSource) (d : List (String × List Value))
    (s2 : DataSource) (ns : List Note)
    (h : s.patch d = .ok (s2, ns)) : goodSchema s2 := by
  unfold DataSource.patch at h
  by_cases h1 : d.all (fun e => s.columns.any (fun c => c.1 == e.1)) = true
  · simp only [h1, if_true] at h
    by_cases h2 : eqLenB (s.columns.map (fun c =>
        match d.lookup c.1 with
        | some v => (c.1, v)
        | none => c)) = true
    · simp only [h2, if_true, Except.ok.injEq, Prod.mk.injEq] at h
      have hs2 : s2 = { s with columns := s.columns.map (fun c =>
          match d.lookup c.1 with
          | some v => (c.1, v)
          | none => c) } := h.1.symm
      subst hs2
      exact eqLenB_goodSchema _ h2
    · simp [h2] at h
  · simp [h1] at h

/-- Modelled from the spec: a full visual style of a renderer at one row;
the examples of the spec use alpha and color (§3, SelectionController policy). -/
structure Style where
  alpha : ℚ
  color : String
deriving DecidableEq

/-- Modelled from the spec: a partial attribute override
(selected_style / nonselected_style of §3). -/
structure StyleDelta where
  alpha : Option ℚ
  color : Option String
deriving DecidableEq

/-- Modelled from the spec: merging a partial override over a base style —
attributes present in the override win, the rest come from the base. -/
def StyleDelta.over (d : StyleDelta) (s : Style) : Style :=
  { alpha := d.alpha.getD s.alpha, color := d.color.getD s.color }

/-- Modelled from the spec: SelectionController.apply (§4.3) — selected_style
merged over base if the row is selected and the selection is non-empty;
nonselected_style merged over base if the selection is non-empty and the row
is not selected; otherwise the base style unmodified. -/
def scApply (sel : List ℕ) (selStyle nonStyle : StyleDelta) (base : Style)
    (row : ℕ) : Style :=
  if sel ≠ [] ∧ row ∈ sel then selStyle.over base
  else if sel ≠ [] then nonStyle.over base
  else base

/-- Modelled from the spec: a Renderer (§3) — read-only consumer of a shared
DataSource carrying its own base style; identified by an id. -/
structure Renderer where
  id : ℕ
  base : Style
deriving DecidableEq

/-- Modelled from the spec: the part of a Document (§4.6) relevant to linked
selection — one shared DataSource, the renderers bound to it, and the
selection policy styles. -/
structure Doc where
  src : DataSource
  bound : List Renderer
  selStyle : StyleDelta
  nonStyle : StyleDelta
deriving DecidableEq

/-- Modelled from the spec: setting the selection through any one renderer
bound to the shared source (§4.3 propagation rule) — the operation acts on
the source itself, so the id of the triggering renderer plays no role in the
result. -/
def Doc.setSelectionVia (doc : Doc) (viaRid : ℕ) (idx : List ℕ) :
    Except DSError Doc :=
  match doc.src.set_selection idx with
  | .ok (s2, _) => .ok { doc with src := s2 }
  | .error e => .error e

/-- Modelled from the spec: the effective visual state of a bound renderer at
one row — the selection policy applied to the base style of the renderer using the
selection of the shared source (§4.3). -/
def Doc.effective (doc : Doc) (r : Renderer) (row : ℕ) : Style :=
  scApply doc.src.selection doc.selStyle doc.nonStyle r.base row

/-- Modelled from the spec: a registered callback (§4.4) — subscribed input
signal names, target column names, and a pure recompute function from the
current input values to the new target column values; a result of none models
the function raising. -/
structure Callback where
  inputs : List String
  targets : List String
  f : List ℚ → Option (List (List Value))

/-- Modelled from the spec: reading the current value of a named input signal from
the widget environment (§6, widget/input contract). -/
def envGet (env : List (String × ℚ)) (n : String) : ℚ :=
  (env.lookup n).getD 0

/-- Modelled from the spec: the error outcome reported for a failed recompute
(§7, CallbackError). -/
inductive CBNote where
  | callbackError
deriving DecidableEq

/-- Modelled from the spec: one recompute-and-patch cycle of the
CallbackEngine (§4.4) — invoke the recompute function with the current values
of all subscribed inputs and patch the target columns in one atomic
DataSource.patch; if the function fails, returns a mismatched number of
columns, or the patch is rejected, the source is left untouched and a
CallbackError is reported. -/
def runCallback (cb : Callback) (env : List (String × ℚ)) (s : DataSource) :
    DataSource × Option CBNote :=
  match cb.f (cb.inputs.map (envGet env)) with
  | none => (s, some .callbackError)
  | some cols =>
    if cols.length = cb.targets.length then
      match s.patch (cb.targets.zip cols) with
      | .ok (s2, _) => (s2, none)
      | .error _ => (s, some .callbackError)
    else (s, some .callbackError)

/-- Modelled from the spec: processing one external event batch (§4.4
ordering guarantee) — all input-change events of the batch are folded into
the widget environment first, and if any of them touched a subscribed input,
exactly one recompute-and-patch cycle runs, with the final values of all
subscribed inputs.  The second component records the argument list of every
recompute invocation performed. -/
def processBatch (cb : Callback) (env : List (String × ℚ)) (s : DataSource)
    (events : List (String × ℚ)) : DataSource × List (List ℚ) :=
  let envF := events.foldl (fun e ev => ev :: e) env
  if events.any (fun ev => cb.inputs.contains ev.1) then
    ((runCallback cb envF s).1, [cb.inputs.map (envGet envF)])
  else (s, [])

/-- Modelled from the spec: the numeric TransformPipeline mapper (§4.2) —
bucket index is the floor of (value - low) / (high - low) * (K - 1) clamped
to the interval from 0 to K - 1, where K is the palette length. -/
def bucketIndex (low high : ℚ) (K : ℕ) (v : ℚ) : ℤ :=
  min ((K : ℤ) - 1) (max 0 ⌊(v - low) / (high - low) * ((K : ℚ) - 1)⌋)

/-- The data dict of the sine-wave source in create_interactive_sine_wave
(02_interactive_plots.py): columns x and y. -/
structure SineData where
  x : List ℚ
  y : List ℚ
deriving DecidableEq

/-- The body of the CustomJS slider callback loop of
create_interactive_sine_wave: y[i] = amp * Math.sin(freq * x[i] + phase).
Math.sin is the external math library, passed in as msin. -/
def jsLoopBody (msin : ℚ → ℚ) (freq amp phase xi : ℚ) : ℚ :=
  amp * msin (freq * xi + phase)

/-- The CustomJS callback of create_interactive_sine_wave
(02_interactive_plots.py, lines 38-63): for i from 0 to x.length - 1 it
assigns y[i] = amp * Math.sin(freq * x[i] + phase) and never writes x.
JavaScript array-write semantics: entries of y beyond x.length are kept, and
y is extended when shorter than x. -/
def sineCallback (msin : ℚ → ℚ) (freq amp phase : ℚ) (d : SineData) :
    SineData :=
  { x := d.x,
    y := d.x.map (jsLoopBody msin freq amp phase) ++ d.y.drop d.x.length }

/-- The Spectral6 palette imported by 03_dashboard_layouts.py from
bokeh.palettes: six colors. -/
def spectral6 : List String :=
  ["#3288bd", "#99d594", "#e6f598", "#fee08b", "#fc8d59", "#d53e4f"]

/-- Python int() truncation toward zero, as applied to a real-valued
expression in 03_dashboard_layouts.py. -/
def pyInt (q : ℚ) : ℤ :=
  if 0 ≤ q then ⌊q⌋ else ⌈q⌉

/-- The heatmap color index of create_sales_dashboard
(03_dashboard_layouts.py, line 128): min(5, max(0, int(val / 20))). -/
def salesColorIdx (val : ℚ) : ℤ :=
  min 5 (max 0 (pyInt (val / 20)))

/-- The correlation color index of create_tabbed_dashboard
(03_dashboard_layouts.py, lines 183-185): color_idx = int((corr_val + 1) *
2.5), then min(5, max(0, color_idx)). -/
def corrColorIdx (corr : ℚ) : ℤ :=
  min 5 (max 0 (pyInt ((corr + 1) * (5 / 2))))

/-- Fixture: a well-formed three-row DataSource with columns x and y and two
registered renderers. -/
def src0 : DataSource :=
  { columns := [("x", [.num 1, .num 2, .num 3]), ("y", [.num 4, .num 5, .num 6])],
    selection := [],
    renderers := [7, 8] }

/-- Fixture: a patch delta replacing column y with three new values. -/
def delta0 : List (String × List Value) :=
  [("y", [.num 9, .num 8, .num 7])]

lemma applyPatchSeq_good (s : DataSource)
    (ds : List (List (String × List Value))) (hs : goodSchema s) :
    goodSchema (applyPatchSeq s ds) := by
  induction ds generalizing s with
  | nil => simpa [applyPatchSeq] using hs
  | cons d ds ih =>
    have hstep : applyPatchSeq s (d :: ds) =
        applyPatchSeq (match s.patch d with
          | .ok (s2, _) => s2
          | .error _ => s) ds := by
      simp [applyPatchSeq]
    rw [hstep]
    rcases h : s.patch d with e | p
    · simpa [h] using ih s hs
    · rcases p with ⟨s2, ns⟩
      simpa [h] using ih s2 (patch_ok_good s d s2 ns h)

/-- C1: after any successful patch, every column of the DataSource has the
same length as every other column; the equal-length schema invariant is
preserved across arbitrary sequences of patches, a rejected patch leaving the
source untouched. -/
theorem C1_schema_invariant_preserved (s : DataSource)
    (ds : List (List (String × List Value))) (hs : goodSchema s) :
    goodSchema (applyPatchSeq s ds) ∧
    ∀ d s2 ns, (applyPatchSeq s ds).patch d = .ok (s2, ns) → goodSchema s2 := by
  refine ⟨applyPatchSeq_good s ds hs, ?_⟩
  intro d s2 ns h
  exact patch_ok_good _ d s2 ns h

/-- Witness for C1 at a concrete source and patch sequence. -/
theorem C1_schema_invariant_preserved_witness :
    goodSchema src0 ∧ goodSchema (applyPatchSeq src0 [delta0]) :=
  ⟨by decide, (C1_schema_invariant_preserved src0 [delta0] (by decide)).1⟩

/-- C8: set_selection fails with IndexRangeError when any index is out of
range; on success the selection becomes the given indices (hence a subset of
the valid row range), the columns are untouched, and every registered
renderer is notified of a selection-only change. -/
theorem C8_set_selection_contract (s : DataSource) (idx : List ℕ) :
    ((∃ i ∈ idx, ¬ i < s.rowCount) →
      s.set_selection idx = .error .indexRange) ∧
    (∀ s2 ns, s.set_selection idx = .ok (s2, ns) →
      s2.selection = idx ∧ (∀ i ∈ s2.selection, i < s2.rowCount) ∧
      s2.columns = s.columns ∧
      ns = s.renderers.map Note.selectionChanged) := by
  by_cases hc : idx.all (fun i => i < s.rowCount) = true
  · constructor
    · rintro ⟨i, hi, hbad⟩
      exact absurd (by simpa using (List.all_eq_true.mp hc) i hi) hbad
    · intro s2 ns h
      simp only [DataSource.set_selection, hc, if_true, Except.ok.injEq,
        Prod.mk.injEq] at h
      obtain ⟨hs2, hns⟩ := h
      subst hns
      refine ⟨by rw [← hs2], ?_, by rw [← hs2], rfl⟩
      intro i hi
      rw [← hs2] at hi
      have hrc : s2.rowCount = s.rowCount := by
        rw [← hs2]; rfl
      simp only at hi
      rw [hrc]
      simpa using (List.all_eq_true.mp hc) i hi
  · constructor
    · intro _
      simp [DataSource.set_selection, hc]
    · intro s2 ns h
      simp [DataSource.set_selection, hc] at h

/-- Witness for C8 at a concrete source: an out-of-range index is rejected,
and a valid selection is installed with a selection-only notification per
registered renderer. -/
theorem C8_set_selection_contract_witness :
    src0.set_selection [5] = .error .indexRange ∧
    ∀ s2 ns, src0.set_selection [0, 2] = .ok (s2, ns) →
      s2.selection = [0, 2] ∧ (∀ i ∈ s2.selection, i < s2.rowCount) ∧
      s2.columns = src0.columns ∧
      ns = src0.renderers.map Note.selectionChanged :=
  ⟨(C8_set_selection_contract src0 [5]).1 ⟨5, by decide, by decide⟩,
   (C8_set_selection_contract src0 [0, 2]).2⟩

/-- C2: for a numeric mapper with a valid domain (low < high) and a
non-empty palette of K colors, map at low gives bucket 0, map at high gives
bucket K - 1, values below low clamp to 0, values above high clamp to K - 1,
and the bucket index is exactly the floor formula clamped to the valid
range. -/
theorem C2_numeric_mapper_bounds (low high : ℚ) (K : ℕ)
    (hlh : low < high) (hK : 1 ≤ K) :
    bucketIndex low high K low = 0 ∧
    bucketIndex low high K high = (K : ℤ) - 1 ∧
    (∀ v, v < low → bucketIndex low high K v = 0) ∧
    (∀ v, high < v → bucketIndex low high K v = (K : ℤ) - 1) ∧
    (∀ v, bucketIndex low high K v =
      min ((K : ℤ) - 1) (max 0 ⌊(v - low) / (high - low) * ((K : ℚ) - 1)⌋)) := by
  have hpos : (0 : ℚ) < high - low := by linarith
  have hKZ : (0 : ℤ) ≤ (K : ℤ) - 1 := by
    have : (1 : ℤ) ≤ (K : ℤ) := by exact_mod_cast hK
    omega
  have hKQ : (0 : ℚ) ≤ (K : ℚ) - 1 := by
    have : (1 : ℚ) ≤ (K : ℚ) := by exact_mod_cast hK
    linarith
  refine ⟨?_, ?_, ?_, ?_, fun v => rfl⟩
  · unfold bucketIndex
    rw [sub_self, zero_div, zero_mul, Int.floor_zero, max_self]
    exact min_eq_right hKZ
  · have hdiv : (high - low) / (high - low) = 1 := div_self (ne_of_gt hpos)
    have hcast : ((K : ℚ) - 1) = (((K : ℤ) - 1 : ℤ) : ℚ) := by push_cast; ring
    unfold bucketIndex
    rw [hdiv, one_mul, hcast, Int.floor_intCast, max_eq_right hKZ, min_self]
  · intro v hv
    have hneg : (v - low) / (high - low) < 0 :=
      div_neg_of_neg_of_pos (by linarith) hpos
    have hprod : (v - low) / (high - low) * ((K : ℚ) - 1) ≤ 0 :=
      mul_nonpos_of_nonpos_of_nonneg (le_of_lt hneg) hKQ
    have hfl : ⌊(v - low) / (high - low) * ((K : ℚ) - 1)⌋ ≤ 0 :=
      Int.floor_nonpos hprod
    unfold bucketIndex
    rw [max_eq_left hfl]
    exact min_eq_right hKZ
  · intro v hv
    have hrat : (1 : ℚ) ≤ (v - low) / (high - low) :=
      (one_le_div hpos).mpr (by linarith)
    have hge : ((K : ℚ) - 1) ≤ (v - low) / (high - low) * ((K : ℚ) - 1) :=
      le_mul_of_one_le_left hKQ hrat
    have hcast : ((((K : ℤ) - 1 : ℤ)) : ℚ) = (K : ℚ) - 1 := by push_cast; ring
    have hfl : (K : ℤ) - 1 ≤ ⌊(v - low) / (high - low) * ((K : ℚ) - 1)⌋ :=
      Int.le_floor.mpr (by rw [hcast]; exact hge)
    have hmax : (K : ℤ) - 1 ≤ max 0 ⌊(v - low) / (high - low) * ((K : ℚ) - 1)⌋ :=
      le_max_of_le_right hfl
    unfold bucketIndex
    exact min_eq_left hmax

/-- Witness for C2 at the concrete domain from 0 to 16 with a four-color
palette: the endpoints map to buckets 0 and 3, and values outside the domain
clamp. -/
theorem C2_numeric_mapper_bounds_witness :
    bucketIndex 0 16 4 0 = 0 ∧ bucketIndex 0 16 4 16 = 3 ∧
    bucketIndex 0 16 4 (-2) = 0 ∧ bucketIndex 0 16 4 20 = 3 := by
  have h := C2_numeric_mapper_bounds 0 16 4 (by norm_num) (by norm_num)
  refine ⟨h.1, ?_, h.2.2.1 (-2) (by norm_num), ?_⟩
  · have := h.2.1
    norm_num at this
    exact this
  · have := h.2.2.2.1 20 (by norm_num)
    norm_num at this
    exact this

/-- Counterexample for C7: with domain from 0 to 16 and palette size 4, the
bucket formula of the spec itself sends the value 4 to bucket 0 (floor of 0.75), not
to bucket 1 as the claim states. -/
theorem C7_counterexample : bucketIndex 0 16 4 4 ≠ 1 := by
  norm_num [bucketIndex]

/-- C7 (amended): in the concrete scenario with domain from 0 to 16 and
palette size 4, map at 0 gives bucket 0, map at 4 gives bucket 0 (floor of
0.75 is 0), and map at 16 gives bucket 3. -/
theorem C7_concrete_scenario :
    bucketIndex 0 16 4 0 = 0 ∧ bucketIndex 0 16 4 4 = 0 ∧
    bucketIndex 0 16 4 16 = 3 := by
  norm_num [bucketIndex]

/-- C5: the selection policy returns selected_style merged over base when the
row is selected and the selection is non-empty, nonselected_style merged over
base when the selection is non-empty and the row is not selected, and the
base style unmodified when the selection is empty; concretely, for five rows
with selection [1, 3], selected alpha 1 and nonselected alpha 1/5 over base
alpha 3/5, the effective alphas are [1/5, 1, 1/5, 1, 1/5]. -/
theorem C5_apply_policy (sel : List ℕ) (ss ns : StyleDelta) (b : Style)
    (row : ℕ) :
    (sel ≠ [] → row ∈ sel → scApply sel ss ns b row = ss.over b) ∧
    (sel ≠ [] → row ∉ sel → scApply sel ss ns b row = ns.over b) ∧
    (sel = [] → scApply sel ss ns b row = b) ∧
    ([0, 1, 2, 3, 4] : List ℕ).map (fun i =>
        (scApply [1, 3] ⟨some 1, none⟩ ⟨some (1/5), none⟩ ⟨3/5, "navy"⟩ i).alpha)
      = [1/5, 1, 1/5, 1, 1/5] := by
  refine ⟨?_, ?_, ?_, ?_⟩
  · intro hne hmem
    simp [scApply, hne, hmem]
  · intro hne hmem
    simp [scApply, hne, hmem, StyleDelta.over]
  · intro he
    simp [scApply, he]
  · simp [scApply, StyleDelta.over]

/-- Witness for C5 at concrete inputs: row 1 of selection [1, 3] gets the
selected style, row 0 the nonselected style. -/
theorem C5_apply_policy_witness :
    scApply [1, 3] ⟨some 1, none⟩ ⟨some 2, none⟩ ⟨3, "navy"⟩ 1 =
      StyleDelta.over ⟨some 1, none⟩ ⟨3, "navy"⟩ ∧
    scApply [1, 3] ⟨some 1, none⟩ ⟨some 2, none⟩ ⟨3, "navy"⟩ 0 =
      StyleDelta.over ⟨some 2, none⟩ ⟨3, "navy"⟩ :=
  ⟨(C5_apply_policy [1, 3] ⟨some 1, none⟩ ⟨some 2, none⟩ ⟨3, "navy"⟩ 1).1
      (by decide) (by decide),
   (C5_apply_policy [1, 3] ⟨some 1, none⟩ ⟨some 2, none⟩ ⟨3, "navy"⟩ 0).2.1
      (by decide) (by decide)⟩

/-- C3: after a successful set_selection issued through any one renderer,
every renderer bound to the shared source shows the selected style on
selected rows and the nonselected style elsewhere; the outcome does not
depend on which renderer triggered the change, and clearing the selection
restores every bound renderer to its unmodified base style. -/
theorem C3_linked_selection (doc : Doc) (viaR : ℕ) (idx : List ℕ)
    (doc2 : Doc) (h : doc.setSelectionVia viaR idx = .ok doc2) :
    (∀ r ∈ doc2.bound, ∀ row,
      (idx ≠ [] → row ∈ idx → doc2.effective r row = doc.selStyle.over r.base) ∧
      (idx ≠ [] → row ∉ idx → doc2.effective r row = doc.nonStyle.over r.base)) ∧
    doc2.bound = doc.bound ∧
    (∀ viaR2, doc.setSelectionVia viaR2 idx = .ok doc2) ∧
    (∀ viaR2 doc3, doc2.setSelectionVia viaR2 [] = .ok doc3 →
      doc3.bound = doc.bound ∧
      ∀ r ∈ doc3.bound, ∀ row, doc3.effective r row = r.base) := by
  by_cases hc : idx.all (fun i => i < doc.src.rowCount) = true
  · simp only [Doc.setSelectionVia, DataSource.set_selection, hc, if_true,
      Except.ok.injEq] at h
    have hdoc2 : doc2 = { doc with src := { doc.src with selection := idx } } :=
      h.symm
    subst hdoc2
    refine ⟨?_, rfl, ?_, ?_⟩
    · intro r hr row
      constructor
      · intro hne hmem
        simp [Doc.effective, scApply, hne, hmem]
      · intro hne hmem
        simp [Doc.effective, scApply, hne, hmem]
    · intro viaR2
      simp [Doc.setSelectionVia, DataSource.set_selection, hc]
    · intro viaR2 doc3 h3
      simp only [Doc.setSelectionVia, DataSource.set_selection, List.all_nil,
        if_true, Except.ok.injEq] at h3
      have hdoc3 : doc3 = { doc with
          src := { doc.src with selection := ([] : List ℕ) } } := h3.symm
      subst hdoc3
      exact ⟨rfl, fun r hr row => by simp [Doc.effective, scApply]⟩
  · simp [Doc.setSelectionVia, DataSource.set_selection, hc] at h

/-- Fixture: a six-row DataSource shared by two renderers. -/
def src6 : DataSource :=
  { columns := [("x", [.num 1, .num 2, .num 3, .num 4, .num 5, .num 6])],
    selection := [],
    renderers := [7, 8] }

/-- Fixture: two renderers bound to the shared six-row source. -/
def docFix : Doc :=
  { src := src6,
    bound := [⟨7, ⟨3, "navy"⟩⟩, ⟨8, ⟨4, "red"⟩⟩],
    selStyle := ⟨some 1, none⟩,
    nonStyle := ⟨some 2, none⟩ }

/-- Fixture: the shared document after selecting rows 2 and 5. -/
def docSel : Doc :=
  { docFix with src := { src6 with selection := [2, 5] } }

/-- Witness for C3 at a concrete document: selecting rows 2 and 5 through
renderer 7 gives both bound renderers the selected style on rows 2 and 5,
and the nonselected style on row 0. -/
theorem C3_linked_selection_witness :
    docSel.effective ⟨7, ⟨3, "navy"⟩⟩ 2 = docFix.selStyle.over ⟨3, "navy"⟩ ∧
    docSel.effective ⟨8, ⟨4, "red"⟩⟩ 5 = docFix.selStyle.over ⟨4, "red"⟩ ∧
    docSel.effective ⟨7, ⟨3, "navy"⟩⟩ 0 = docFix.nonStyle.over ⟨3, "navy"⟩ := by
  have h := C3_linked_selection docFix 7 [2, 5] docSel (by rfl)
  exact ⟨(h.1 ⟨7, ⟨3, "navy"⟩⟩ (by decide) 2).1 (by decide) (by decide),
         (h.1 ⟨8, ⟨4, "red"⟩⟩ (by decide) 5).1 (by decide) (by decide),
         (h.1 ⟨7, ⟨3, "navy"⟩⟩ (by decide) 0).2 (by decide) (by decide)⟩

/-- C4: when the recompute function of a registered callback fails, a
CallbackError is reported; whenever a CallbackError is reported (failure or
mismatched shape), the target DataSource retains exactly its prior state — no
partial patch is applied — and every subsequent operation on it behaves as if
the failed recompute had never run. -/
theorem C4_callback_atomicity (cb : Callback) (env : List (String × ℚ))
    (s : DataSource) :
    (cb.f (cb.inputs.map (envGet env)) = none →
      (runCallback cb env s).2 = some .callbackError) ∧
    ((runCallback cb env s).2 = some .callbackError →
      (runCallback cb env s).1 = s) ∧
    ((runCallback cb env s).2 = some .callbackError →
      ∀ cb2 env2, runCallback cb2 env2 (runCallback cb env s).1 =
        runCallback cb2 env2 s) := by
  have hmain : (runCallback cb env s).2 = some .callbackError →
      (runCallback cb env s).1 = s := by
    intro herr
    unfold runCallback at herr ⊢
    rcases hf : cb.f (cb.inputs.map (envGet env)) with _ | cols
    · simp [hf]
    · simp only [hf] at herr ⊢
      by_cases hlen : cols.length = cb.targets.length
      · simp only [hlen, if_true] at herr ⊢
        rcases hp : s.patch (cb.targets.zip cols) with e | p
        · simp [hp]
        · rcases p with ⟨s2, ns⟩
          simp [hp] at herr
      · simp [hlen]
  refine ⟨?_, hmain, ?_⟩
  · intro hf
    unfold runCallback
    simp [hf]
  · intro herr cb2 env2
    rw [hmain herr]

/-- Fixture: a callback whose recompute function always fails. -/
def cbFail : Callback :=
  { inputs := ["freq"], targets := ["y"], f := fun _ => none }

/-- Witness for C4: the always-failing callback reports a CallbackError and
leaves the concrete source exactly as it was. -/
theorem C4_callback_atomicity_witness :
    (runCallback cbFail [("freq", 2)] src0).2 = some .callbackError ∧
    (runCallback cbFail [("freq", 2)] src0).1 = src0 := by
  have h := C4_callback_atomicity cbFail [("freq", 2)] src0
  have herr : (runCallback cbFail [("freq", 2)] src0).2 =
      some .callbackError := h.1 rfl
  exact ⟨herr, h.2.1 herr⟩

/-- C6: when at least one event of an external batch touches a subscribed
input, the engine performs exactly one recompute invocation, with the final
values of all subscribed inputs after folding in every event of the batch,
followed by a single recompute-and-patch cycle on that final environment. -/
theorem C6_event_coalescing (cb : Callback) (env : List (String × ℚ))
    (s : DataSource) (events : List (String × ℚ))
    (h : ∃ ev ∈ events, ev.1 ∈ cb.inputs) :
    (processBatch cb env s events).2 =
      [cb.inputs.map (envGet (events.foldl (fun e ev => ev :: e) env))] ∧
    (processBatch cb env s events).1 =
      (runCallback cb (events.foldl (fun e ev => ev :: e) env) s).1 := by
  have hany : events.any (fun ev => cb.inputs.contains ev.1) = true := by
    obtain ⟨ev, hmem, hin⟩ := h
    exact List.any_eq_true.mpr ⟨ev, hmem, by simpa using hin⟩
  unfold processBatch
  rw [if_pos hany]
  exact ⟨rfl, rfl⟩

/-- Fixture: a callback subscribed to the three sine-wave sliders, always
failing (the recompute result is irrelevant to coalescing). -/
def cbSine : Callback :=
  { inputs := ["freq", "amp", "phase"], targets := ["y"], f := fun _ => none }

/-- Witness for C6: a batch with three input changes, two of them to the same
slider, yields exactly one recompute invocation, called with the final values
freq = 5, amp = 3, phase = 1. -/
theorem C6_event_coalescing_witness :
    (processBatch cbSine [("phase", 1)] src0
        [("freq", 2), ("amp", 3), ("freq", 5)]).2 = [[5, 3, 1]] :=
  ((C6_event_coalescing cbSine [("phase", 1)] src0
      [("freq", 2), ("amp", 3), ("freq", 5)]
      ⟨("freq", 2), by decide, by decide⟩).1).trans (by decide)

/-- C9: for every triple of slider values, the sine-wave callback rewrites
column y so that every element becomes amp * sin(freq * x[i] + phase) — the
whole column equals the map of that expression over column x — while column x
and the row count are unchanged. -/
theorem C9_sine_callback_effect (msin : ℚ → ℚ) (freq amp phase : ℚ)
    (d : SineData) (h : d.y.length = d.x.length) :
    (sineCallback msin freq amp phase d).x = d.x ∧
    (sineCallback msin freq amp phase d).y =
      d.x.map (fun xi => amp * msin (freq * xi + phase)) ∧
    (sineCallback msin freq amp phase d).y.length = d.y.length := by
  have hdrop : d.y.drop d.x.length = [] :=
    List.drop_eq_nil_of_le (le_of_eq h)
  refine ⟨rfl, ?_, ?_⟩
  · simp [sineCallback, hdrop, jsLoopBody]
  · simp [sineCallback, hdrop, h]

/-- Witness for C9 with the identity standing in for Math.sin: on
x = [0, 1], y = [9, 9], freq = 1, amp = 2, phase = 0, the callback rewrites y
to [0, 2] and keeps x. -/
theorem C9_sine_callback_effect_witness :
    (sineCallback (fun q => q) 1 2 0 ⟨[0, 1], [9, 9]⟩).x = [0, 1] ∧
    (sineCallback (fun q => q) 1 2 0 ⟨[0, 1], [9, 9]⟩).y = [0, 2] := by
  have h := C9_sine_callback_effect (fun q => q) 1 2 0 ⟨[0, 1], [9, 9]⟩ (by decide)
  exact ⟨h.1, h.2.1.trans (by norm_num)⟩

/-- C10: for every sales value and every correlation value, the palette
indices computed in 03_dashboard_layouts.py lie between 0 and 5, so indexing
the six-element Spectral6 palette never goes out of bounds. -/
theorem C10_palette_index_in_bounds (val corr : ℚ) :
    0 ≤ salesColorIdx val ∧ salesColorIdx val ≤ 5 ∧
    0 ≤ corrColorIdx corr ∧ corrColorIdx corr ≤ 5 ∧
    (spectral6.get? (salesColorIdx val).toNat).isSome = true ∧
    (spectral6.get? (corrColorIdx corr).toNat).isSome = true := by
  have hsafe : ∀ n, n < 6 → (spectral6.get? n).isSome = true := by decide
  have h1 : (0 : ℤ) ≤ salesColorIdx val :=
    le_min (by norm_num) (le_max_left 0 _)
  have h2 : salesColorIdx val ≤ 5 := min_le_left _ _
  have h3 : (0 : ℤ) ≤ corrColorIdx corr :=
    le_min (by norm_num) (le_max_left 0 _)
  have h4 : corrColorIdx corr ≤ 5 := min_le_left _ _
  exact ⟨h1, h2, h3, h4, hsafe _ (by omega), hsafe _ (by omega)⟩

end BokehCore

